import Mathlib

/-!
Verification of the ace-tool configuration module (`src/config.ts`) and the
MCP logging module (`src/mcpLogger.ts`).

JS strings are modelled by Lean `String` (a wrapper around `List Char`);
`String.prototype.startsWith`, the regex replace `/\/$/ -> ''` and the
related operations are modelled by `jsStartsWith`, `jsEndsWith` and
`jsDropLast` over the character list.  The process-wide mutable slot
`let config: Config | null` is modelled by explicit state passing of an
`Option Config` value: `initConfig argv st` returns the call's outcome
together with the new value of the slot.
-/

namespace AceTool

/-- JS `s.startsWith(p)`. -/
def jsStartsWith (s p : String) : Bool := p.data.isPrefixOf s.data

/-- JS test that `s` ends with `p` (used to model the regex `/\/$/`). -/
def jsEndsWith (s p : String) : Bool := p.data.isSuffixOf s.data

/-- Removing the last character of a string: the effect of
`s.replace(/\/$/, '')` when `s` ends with a slash. -/
def jsDropLast (s : String) : String := ⟨s.data.dropLast⟩

/-- `UploadStrategy` record of `config.ts`. -/
structure UploadStrategy where
  batchSize : Nat
  concurrency : Nat
  timeout : Nat
  scaleName : String
deriving DecidableEq

/-- `getUploadStrategy` of `config.ts`: the four-tier adaptive table.
Blob counts are JS numbers used as integers, modelled by `Int`. -/
def getUploadStrategy (blobCount : Int) : UploadStrategy :=
  if blobCount < 100 then
    { batchSize := 10, concurrency := 1, timeout := 30000, scaleName := "小型" }
  else if blobCount < 500 then
    { batchSize := 30, concurrency := 2, timeout := 45000, scaleName := "中型" }
  else if blobCount < 2000 then
    { batchSize := 50, concurrency := 3, timeout := 60000, scaleName := "大型" }
  else
    { batchSize := 70, concurrency := 4, timeout := 90000, scaleName := "超大型" }

/-- `DEFAULT_TEXT_EXTENSIONS` of `config.ts` (a JS `Set` built from this
literal list; all entries are distinct, so the list carries the same
membership information). -/
def DEFAULT_TEXT_EXTENSIONS : List String :=
  [".py", ".js", ".ts", ".jsx", ".tsx",
   ".java", ".go", ".rs", ".cpp", ".c",
   ".h", ".hpp", ".cs", ".rb", ".php",
   ".swift", ".kt", ".scala", ".clj",
   ".md", ".txt", ".json", ".yaml", ".yml",
   ".toml", ".xml", ".ini", ".conf",
   ".html", ".css", ".scss", ".sass", ".less",
   ".sql", ".sh", ".bash", ".ps1", ".bat",
   ".vue", ".svelte"]

/-- `DEFAULT_EXCLUDE_PATTERNS` of `config.ts`. -/
def DEFAULT_EXCLUDE_PATTERNS : List String :=
  [".venv", "venv", ".env", "env", "node_modules",
   ".git", ".svn", ".hg",
   "__pycache__", ".pytest_cache", ".mypy_cache",
   ".tox", ".eggs", "*.egg-info",
   "dist", "build", "target", "out",
   ".idea", ".vscode", ".vs",
   ".DS_Store", "Thumbs.db",
   "*.pyc", "*.pyo", "*.pyd", "*.so", "*.dll",
   ".ace-tool"]

/-- `Config` record of `config.ts`.  The TS `Set<string>` field is modelled
as the underlying literal list (membership is all that is consulted). -/
structure Config where
  baseUrl : String
  token : String
  batchSize : Nat
  maxLinesPerBlob : Nat
  textExtensions : List String
  excludePatterns : List String
  enableLog : Bool
deriving DecidableEq

/-- Result record of `parseArgs` in `config.ts`: three optional fields,
absent (`undefined`) modelled as `none`. -/
structure ParsedArgs where
  baseUrl : Option String
  token : Option String
  enableLog : Option Bool
deriving DecidableEq

/-- The `for` loop of `parseArgs`: scans the argument list, consuming the
token after `--base-url` or `--token` (when one exists) and recording
`--enable-log`; every other token is skipped. -/
def parseArgsLoop : List String → ParsedArgs → ParsedArgs
  | [], r => r
  | arg :: rest, r =>
    if arg == "--base-url" then
      match rest with
      | v :: rest2 => parseArgsLoop rest2 { r with baseUrl := some v }
      | [] => r
    else if arg == "--token" then
      match rest with
      | v :: rest2 => parseArgsLoop rest2 { r with token := some v }
      | [] => r
    else if arg == "--enable-log" then
      parseArgsLoop rest { r with enableLog := some true }
    else
      parseArgsLoop rest r

/-- `parseArgs` of `config.ts`, applied to `process.argv.slice(2)`
(passed here explicitly as `args`). -/
def parseArgs (args : List String) : ParsedArgs :=
  parseArgsLoop args { baseUrl := none, token := none, enableLog := none }

/-- JS truthiness of an optional string: `undefined` and `""` are falsy. -/
def jsTruthy : Option String → Bool
  | none => false
  | some s => !(s == "")

/-- The scheme-prefix step of `initConfig`: prepend `https://` when the
value starts with neither `http://` nor `https://`. -/
def schemePrefixed (b : String) : String :=
  if !(jsStartsWith b "http://") && !(jsStartsWith b "https://") then
    "https://" ++ b
  else
    b

/-- The base-URL normalization of `initConfig`: scheme prefixing followed
by `replace(/\/$/, '')`, which removes exactly one trailing slash. -/
def normalizeUrl (b : String) : String :=
  let w := schemePrefixed b
  if jsEndsWith w "/" then jsDropLast w else w

/-- Body of `initConfig` after `parseArgs`: validation, normalization and
construction of the `Config`.  Returns the outcome together with the new
value of the process-wide `config` slot. -/
def initFromArgs (args : ParsedArgs) (st : Option Config) :
    Except String Config × Option Config :=
  if !(jsTruthy args.baseUrl) then
    (Except.error "Missing required argument: --base-url", st)
  else if !(jsTruthy args.token) then
    (Except.error "Missing required argument: --token", st)
  else
    let c : Config :=
      { baseUrl := normalizeUrl (args.baseUrl.getD ""),
        token := args.token.getD "",
        batchSize := 10,
        maxLinesPerBlob := 800,
        textExtensions := DEFAULT_TEXT_EXTENSIONS,
        excludePatterns := DEFAULT_EXCLUDE_PATTERNS,
        enableLog := args.enableLog.getD false }
    (Except.ok c, some c)

/-- `initConfig` of `config.ts` (argv made explicit, config slot passed as
state). -/
def initConfig (argv : List String) (st : Option Config) :
    Except String Config × Option Config :=
  initFromArgs (parseArgs argv) st

/-- `getConfig` of `config.ts`. -/
def getConfig (st : Option Config) : Except String Config :=
  match st with
  | none => Except.error "Config not initialized. Call initConfig() first."
  | some c => Except.ok c

/-- `LogLevel` of `mcpLogger.ts`. -/
inductive LogLevel where
  | debug | info | warning | error
deriving DecidableEq

/-- Model of an MCP `Server` handle: its `sendLoggingMessage` method is an
arbitrary delivery attempt that either succeeds or fails with some error. -/
structure McpServerModel where
  sendLoggingMessage : LogLevel → String → Except String Unit

/-- `initMcpLogger` of `mcpLogger.ts`: rebinding simply replaces the
stored handle. -/
def initMcpLogger (st : Option McpServerModel) (server : McpServerModel) :
    Option McpServerModel :=
  let _ := st
  some server

/-- `sendMcpLog` of `mcpLogger.ts`.  The result is the error (if any) that
the call lets escape to its caller: `.ok ()` means a normal return.  An
unbound server returns immediately; a bound server's delivery failure is
swallowed by `.catch(() => {})`. -/
def sendMcpLog (server : Option McpServerModel) (level : LogLevel)
    (message : String) : Except String Unit :=
  match server with
  | none => Except.ok ()
  | some s =>
    match s.sendLoggingMessage level message with
    | Except.ok _ => Except.ok ()
    | Except.error _ => Except.ok ()

/-- The `Config` record built by a successful `initConfig`, as a function of
the three argv-derived fields (all other fields are constants). -/
def mkConfig (b t : String) (e : Bool) : Config :=
  { baseUrl := b,
    token := t,
    batchSize := 10,
    maxLinesPerBlob := 800,
    textExtensions := DEFAULT_TEXT_EXTENSIONS,
    excludePatterns := DEFAULT_EXCLUDE_PATTERNS,
    enableLog := e }

/-- Base-URL normalization as the specification words it: if the value
starts with neither `http://` nor `https://`, prepend `https://`; then
remove exactly one trailing `/` if present.  Stated independently of
`normalizeUrl` to compare the code with the specification. -/
def specNormalizeBaseUrl (v : String) : String :=
  let w :=
    if jsStartsWith v "http://" || jsStartsWith v "https://" then v
    else "https://" ++ v
  if jsEndsWith w "/" then jsDropLast w else w

theorem jsStartsWith_iff {s p : String} :
    jsStartsWith s p = true ↔ p.data <+: s.data := by
  simp [jsStartsWith]

theorem jsEndsWith_iff {s p : String} :
    jsEndsWith s p = true ↔ p.data <:+ s.data := by
  simp [jsEndsWith]

theorem normalizeUrl_eq_spec (b : String) :
    normalizeUrl b = specNormalizeBaseUrl b := by
  cases hA : jsStartsWith b "http://" <;>
    cases hB : jsStartsWith b "https://" <;>
      simp [normalizeUrl, schemePrefixed, specNormalizeBaseUrl, hA, hB]

theorem schemePrefixed_startsWith (b : String) :
    jsStartsWith (schemePrefixed b) "http://" = true ∨
      jsStartsWith (schemePrefixed b) "https://" = true := by
  unfold schemePrefixed
  cases hA : jsStartsWith b "http://" <;> cases hB : jsStartsWith b "https://"
  · right
    simp only [hA, hB, Bool.not_false, Bool.and_self, if_pos]
    exact jsStartsWith_iff.2 (by rw [String.data_append]; exact List.prefix_append _ _)
  · right; simpa using hB
  · left; simpa using hA
  · left; simpa using hA

theorem schemePrefixed_length (b : String) :
    7 ≤ (schemePrefixed b).data.length := by
  rcases schemePrefixed_startsWith b with h | h
  · have hle := (jsStartsWith_iff.1 h).length_le
    have h7 : ("http://".data).length = 7 := by decide
    omega
  · have hle := (jsStartsWith_iff.1 h).length_le
    have h8 : ("https://".data).length = 8 := by decide
    omega

theorem normalizeUrl_def (b : String) :
    normalizeUrl b =
      if jsEndsWith (schemePrefixed b) "/" then jsDropLast (schemePrefixed b)
      else schemePrefixed b := rfl

theorem normalizeUrl_ne_empty (b : String) : normalizeUrl b ≠ "" := by
  have h7 := schemePrefixed_length b
  rw [normalizeUrl_def]
  split
  · intro heq
    have hdata := congrArg String.data heq
    simp only [jsDropLast] at hdata
    have : (schemePrefixed b).data.dropLast.length = 0 := by
      rw [hdata]; rfl
    rw [List.length_dropLast] at this
    omega
  · intro heq
    have hdata := congrArg String.data heq
    have : (schemePrefixed b).data.length = 0 := by
      rw [hdata]; rfl
    omega

theorem normalizeUrl_no_trailing_slash {b : String}
    (h : jsEndsWith (schemePrefixed b) "//" = false) :
    jsEndsWith (normalizeUrl b) "/" = false := by
  rw [normalizeUrl_def]
  split
  case isTrue hs =>
    obtain ⟨ys, hys⟩ := jsEndsWith_iff.1 hs
    cases hr : jsEndsWith (jsDropLast (schemePrefixed b)) "/"
    · rfl
    · exfalso
      obtain ⟨zs, hzs⟩ := jsEndsWith_iff.1 hr
      have hdrop : (jsDropLast (schemePrefixed b)).data = ys := by
        simp only [jsDropLast]
        rw [← hys]
        exact List.dropLast_concat
      rw [hdrop] at hzs
      have hsuf : "//".data <:+ (schemePrefixed b).data := by
        refine ⟨zs, ?_⟩
        rw [← hys, ← hzs, List.append_assoc]
        rfl
      rw [jsEndsWith_iff.2 hsuf] at h
      simp at h
  case isFalse hs =>
    cases hr : jsEndsWith (schemePrefixed b) "/"
    · rfl
    · exact absurd hr hs

theorem normalizeUrl_scheme {b : String}
    (h : jsEndsWith (schemePrefixed b) "//" = false) :
    jsStartsWith (normalizeUrl b) "http://" = true ∨
      jsStartsWith (normalizeUrl b) "https://" = true := by
  rw [normalizeUrl_def]
  split
  case isFalse hs => exact schemePrefixed_startsWith b
  case isTrue hs =>
    have hends : "//".data <:+ ("http://".data) ∧ "//".data <:+ ("https://".data) := by
      constructor
      · exact ⟨['h', 't', 't', 'p', ':'], by decide⟩
      · exact ⟨['h', 't', 't', 'p', 's', ':'], by decide⟩
    rcases schemePrefixed_startsWith b with hp | hp
    · left
      obtain ⟨t, ht⟩ := jsStartsWith_iff.1 hp
      rcases List.eq_nil_or_concat t with rfl | ⟨q, c, rfl⟩
      · exfalso
        rw [List.append_nil] at ht
        have : "//".data <:+ (schemePrefixed b).data := ht ▸ hends.1
        rw [jsEndsWith_iff.2 this] at h
        simp at h
      · refine jsStartsWith_iff.2 ?_
        have hdrop : (jsDropLast (schemePrefixed b)).data = "http://".data ++ q := by
          simp only [jsDropLast]
          rw [← ht, List.concat_eq_append, ← List.append_assoc, List.dropLast_concat]
        rw [hdrop]
        exact List.prefix_append _ _
    · right
      obtain ⟨t, ht⟩ := jsStartsWith_iff.1 hp
      rcases List.eq_nil_or_concat t with rfl | ⟨q, c, rfl⟩
      · exfalso
        rw [List.append_nil] at ht
        have : "//".data <:+ (schemePrefixed b).data := ht ▸ hends.2
        rw [jsEndsWith_iff.2 this] at h
        simp at h
      · refine jsStartsWith_iff.2 ?_
        have hdrop : (jsDropLast (schemePrefixed b)).data = "https://".data ++ q := by
          simp only [jsDropLast]
          rw [← ht, List.concat_eq_append, ← List.append_assoc, List.dropLast_concat]
        rw [hdrop]
        exact List.prefix_append _ _

theorem initFromArgs_missing_baseUrl {args : ParsedArgs} {st : Option Config}
    (h : jsTruthy args.baseUrl = false) :
    initFromArgs args st = (Except.error "Missing required argument: --base-url", st) := by
  simp [initFromArgs, h]

theorem initFromArgs_missing_token {args : ParsedArgs} {st : Option Config}
    (h1 : jsTruthy args.baseUrl = true) (h2 : jsTruthy args.token = false) :
    initFromArgs args st = (Except.error "Missing required argument: --token", st) := by
  simp [initFromArgs, h1, h2]

theorem initFromArgs_success {args : ParsedArgs} {st : Option Config}
    (h1 : jsTruthy args.baseUrl = true) (h2 : jsTruthy args.token = true) :
    initFromArgs args st =
      (Except.ok (mkConfig (normalizeUrl (args.baseUrl.getD ""))
          (args.token.getD "") (args.enableLog.getD false)),
       some (mkConfig (normalizeUrl (args.baseUrl.getD ""))
          (args.token.getD "") (args.enableLog.getD false))) := by
  simp [initFromArgs, mkConfig, h1, h2]

theorem initFromArgs_ok {args : ParsedArgs} {st : Option Config} {c : Config}
    (h : (initFromArgs args st).1 = Except.ok c) :
    jsTruthy args.baseUrl = true ∧ jsTruthy args.token = true ∧
      c = mkConfig (normalizeUrl (args.baseUrl.getD ""))
        (args.token.getD "") (args.enableLog.getD false) ∧
      (initFromArgs args st).2 = some c := by
  cases h1 : jsTruthy args.baseUrl with
  | false =>
    rw [initFromArgs_missing_baseUrl h1] at h
    exact absurd h (by simp)
  | true =>
    cases h2 : jsTruthy args.token with
    | false =>
      rw [initFromArgs_missing_token h1 h2] at h
      exact absurd h (by simp)
    | true =>
      rw [initFromArgs_success h1 h2] at h
      refine ⟨rfl, rfl, ?_, ?_⟩
      · exact (Except.ok.inj h).symm
      · rw [initFromArgs_success h1 h2, Except.ok.inj h]

/-- C1: `getUploadStrategy` realizes exactly the four-tier table, with the
documented boundary behaviour at 99/100, 499/500, 1999/2000, and negative
counts falling into the first bucket. -/
theorem C1_getUploadStrategy_table :
    (∀ n : Int, n < 100 →
      getUploadStrategy n =
        { batchSize := 10, concurrency := 1, timeout := 30000, scaleName := "小型" }) ∧
    (∀ n : Int, 100 ≤ n → n < 500 →
      getUploadStrategy n =
        { batchSize := 30, concurrency := 2, timeout := 45000, scaleName := "中型" }) ∧
    (∀ n : Int, 500 ≤ n → n < 2000 →
      getUploadStrategy n =
        { batchSize := 50, concurrency := 3, timeout := 60000, scaleName := "大型" }) ∧
    (∀ n : Int, 2000 ≤ n →
      getUploadStrategy n =
        { batchSize := 70, concurrency := 4, timeout := 90000, scaleName := "超大型" }) ∧
    (getUploadStrategy 99).scaleName = "小型" ∧
    (getUploadStrategy 100).scaleName = "中型" ∧
    (getUploadStrategy 499).scaleName = "中型" ∧
    (getUploadStrategy 500).scaleName = "大型" ∧
    (getUploadStrategy 1999).scaleName = "大型" ∧
    (getUploadStrategy 2000).scaleName = "超大型" ∧
    (getUploadStrategy (-7)).scaleName = "小型" ∧
    (getUploadStrategy 0).scaleName = "小型" := by
  refine ⟨?_, ?_, ?_, ?_, ?_, ?_, ?_, ?_, ?_, ?_, ?_, ?_⟩
  · intro n h
    simp [getUploadStrategy, h]
  · intro n h1 h2
    have : ¬ n < 100 := by omega
    simp [getUploadStrategy, this, h2]
  · intro n h1 h2
    have ha : ¬ n < 100 := by omega
    have hb : ¬ n < 500 := by omega
    simp [getUploadStrategy, ha, hb, h2]
  · intro n h1
    have ha : ¬ n < 100 := by omega
    have hb : ¬ n < 500 := by omega
    have hc : ¬ n < 2000 := by omega
    simp [getUploadStrategy, ha, hb, hc]
  all_goals decide

/-- Witness for C1 at concrete inputs in each tier. -/
theorem C1_getUploadStrategy_table_witness :
    getUploadStrategy 250 =
      { batchSize := 30, concurrency := 2, timeout := 45000, scaleName := "中型" } ∧
    getUploadStrategy (-3) =
      { batchSize := 10, concurrency := 1, timeout := 30000, scaleName := "小型" } ∧
    getUploadStrategy 1000 =
      { batchSize := 50, concurrency := 3, timeout := 60000, scaleName := "大型" } ∧
    getUploadStrategy 5000 =
      { batchSize := 70, concurrency := 4, timeout := 90000, scaleName := "超大型" } :=
  ⟨C1_getUploadStrategy_table.2.1 250 (by decide) (by decide),
   C1_getUploadStrategy_table.1 (-3) (by decide),
   C1_getUploadStrategy_table.2.2.1 1000 (by decide) (by decide),
   C1_getUploadStrategy_table.2.2.2.1 5000 (by decide)⟩

/-- C2: for every argv whose parsed `--base-url` value is a (non-empty)
string `v` and whose parsed `--token` value is non-empty, `initConfig`
succeeds and produces exactly the spec-worded normalization of `v`:
prepend `https://` when no `http://`/`https://` prefix is present, then
strip exactly one trailing `/`.  The concrete conjuncts check the two
examples from the spec and that a double trailing slash is not stripped
recursively. -/
theorem C2_baseUrl_normalization :
    (∀ (argv : List String) (st : Option Config) (v t : String),
        (parseArgs argv).baseUrl = some v → v ≠ "" →
        (parseArgs argv).token = some t → t ≠ "" →
        ((initConfig argv st).1.toOption.map (fun c => c.baseUrl))
          = some (specNormalizeBaseUrl v)) ∧
    ((initConfig ["--base-url", "example.com", "--token", "abc"] none).1.toOption.map
        (fun c => c.baseUrl) = some "https://example.com") ∧
    ((initConfig ["--base-url", "https://example.com/", "--token", "abc"] none).1.toOption.map
        (fun c => c.baseUrl) = some "https://example.com") ∧
    ((initConfig ["--base-url", "https://example.com//", "--token", "abc"] none).1.toOption.map
        (fun c => c.baseUrl) = some "https://example.com/") := by
  refine ⟨?_, by decide, by decide, by decide⟩
  intro argv st v t hv hvne htk htne
  have hb : jsTruthy (parseArgs argv).baseUrl = true := by
    rw [hv]; simp [jsTruthy, hvne]
  have htt : jsTruthy (parseArgs argv).token = true := by
    rw [htk]; simp [jsTruthy, htne]
  simp only [initConfig]
  rw [initFromArgs_success hb htt]
  simp [mkConfig, hv, normalizeUrl_eq_spec, Except.toOption]

/-- Witness for C2 at a concrete argv. -/
theorem C2_baseUrl_normalization_witness :
    ((initConfig ["--base-url", "example.com", "--token", "abc"] none).1.toOption.map
        (fun c => c.baseUrl)) = some (specNormalizeBaseUrl "example.com") :=
  C2_baseUrl_normalization.1 ["--base-url", "example.com", "--token", "abc"] none
    "example.com" "abc" (by decide) (by decide) (by decide) (by decide)

/-- C3 counterexample: a successful `initConfig` whose resulting `baseUrl`
ends with `/` — the raw value `https://example.com//` loses only one of its
two trailing slashes, refuting the invariant as claimed. -/
theorem C3_baseUrl_invariant_counterexample :
    ((initConfig ["--base-url", "https://example.com//", "--token", "t"] none).1.toOption.map
      (fun c => c.baseUrl)) = some "https://example.com/" ∧
    jsEndsWith "https://example.com/" "/" = true := by
  decide

/-- C3 (amended): for every successful `initConfig`, `baseUrl` is never
empty; and whenever the scheme-prefixed raw value does not end in `//`,
`baseUrl` does not end with `/` and starts with `http://` or `https://`. -/
theorem C3_baseUrl_invariant_amended :
    ∀ (argv : List String) (st : Option Config) (c : Config),
      (initConfig argv st).1 = Except.ok c →
      c.baseUrl ≠ "" ∧
      (jsEndsWith (schemePrefixed ((parseArgs argv).baseUrl.getD "")) "//" = false →
        jsEndsWith c.baseUrl "/" = false ∧
        (jsStartsWith c.baseUrl "http://" = true ∨
          jsStartsWith c.baseUrl "https://" = true)) := by
  intro argv st c h
  simp only [initConfig] at h
  obtain ⟨_, _, hc, _⟩ := initFromArgs_ok h
  subst hc
  constructor
  · simpa [mkConfig] using normalizeUrl_ne_empty ((parseArgs argv).baseUrl.getD "")
  · intro hnn
    exact ⟨by simpa [mkConfig] using normalizeUrl_no_trailing_slash hnn,
           by simpa [mkConfig] using normalizeUrl_scheme hnn⟩

/-- Witness for the amended C3 at a concrete argv. -/
theorem C3_baseUrl_invariant_amended_witness :
    (mkConfig "https://example.com" "t" false).baseUrl ≠ "" ∧
    (jsEndsWith (schemePrefixed ((parseArgs ["--base-url", "example.com", "--token", "t"]).baseUrl.getD "")) "//" = false →
      jsEndsWith (mkConfig "https://example.com" "t" false).baseUrl "/" = false ∧
      (jsStartsWith (mkConfig "https://example.com" "t" false).baseUrl "http://" = true ∨
        jsStartsWith (mkConfig "https://example.com" "t" false).baseUrl "https://" = true)) :=
  C3_baseUrl_invariant_amended ["--base-url", "example.com", "--token", "t"] none
    (mkConfig "https://example.com" "t" false) (by rfl)

/-- C4: a falsy parsed `--base-url` makes `initConfig` fail with the error
naming `--base-url` and leaves the slot unchanged; with a truthy base-url,
a falsy parsed `--token` fails naming `--token` and leaves the slot
unchanged; any truthy token passes with no further validation and is
stored verbatim; after a failed init on an empty slot, `getConfig` still
fails with the not-initialized error; `initConfig []` fails naming
`--base-url`. -/
theorem C4_missing_required_arguments :
    (∀ (argv : List String) (st : Option Config),
        jsTruthy (parseArgs argv).baseUrl = false →
        initConfig argv st = (Except.error "Missing required argument: --base-url", st)) ∧
    (∀ (argv : List String) (st : Option Config),
        jsTruthy (parseArgs argv).baseUrl = true →
        jsTruthy (parseArgs argv).token = false →
        initConfig argv st = (Except.error "Missing required argument: --token", st)) ∧
    (∀ (argv : List String) (st : Option Config),
        jsTruthy (parseArgs argv).baseUrl = true →
        jsTruthy (parseArgs argv).token = true →
        ((initConfig argv st).1.toOption.map (fun c => c.token))
          = some ((parseArgs argv).token.getD "")) ∧
    (∀ (argv : List String) (e : String),
        (initConfig argv none).1 = Except.error e →
        getConfig (initConfig argv none).2 =
          Except.error "Config not initialized. Call initConfig() first.") ∧
    initConfig [] none = (Except.error "Missing required argument: --base-url", none) := by
  refine ⟨?_, ?_, ?_, ?_, by rfl⟩
  · intro argv st h
    simp only [initConfig]
    exact initFromArgs_missing_baseUrl h
  · intro argv st h1 h2
    simp only [initConfig]
    exact initFromArgs_missing_token h1 h2
  · intro argv st h1 h2
    simp only [initConfig]
    rw [initFromArgs_success h1 h2]
    simp [mkConfig, Except.toOption]
  · intro argv e h
    simp only [initConfig] at h ⊢
    cases h1 : jsTruthy (parseArgs argv).baseUrl
    · rw [initFromArgs_missing_baseUrl h1]
      rfl
    · cases h2 : jsTruthy (parseArgs argv).token
      · rw [initFromArgs_missing_token h1 h2]
        rfl
      · rw [initFromArgs_success h1 h2] at h
        exact absurd h (by simp)

/-- Witness for C4 at a concrete argv missing `--base-url`. -/
theorem C4_missing_required_arguments_witness :
    initConfig ["--token", "t"] none =
      (Except.error "Missing required argument: --base-url", none) :=
  C4_missing_required_arguments.1 ["--token", "t"] none (by decide)

/-- C5: `getConfig` fails with the not-initialized error on the empty
slot, and after any successful `initConfig` it returns exactly the stored
`Config` produced by that call. -/
theorem C5_getConfig_behaviour :
    getConfig none = Except.error "Config not initialized. Call initConfig() first." ∧
    (∀ (argv : List String) (st : Option Config) (c : Config),
        (initConfig argv st).1 = Except.ok c →
        getConfig (initConfig argv st).2 = Except.ok c) := by
  refine ⟨rfl, ?_⟩
  intro argv st c h
  simp only [initConfig] at h ⊢
  obtain ⟨_, _, _, hst⟩ := initFromArgs_ok h
  rw [hst]
  rfl

/-- Witness for C5 at a concrete argv. -/
theorem C5_getConfig_behaviour_witness :
    getConfig (initConfig ["--base-url", "u", "--token", "t"] none).2 =
      Except.ok (mkConfig "https://u" "t" false) :=
  C5_getConfig_behaviour.2 ["--base-url", "u", "--token", "t"] none
    (mkConfig "https://u" "t" false) (by rfl)

/-- C6: the argument loop consults only the three exact tokens — any other
token is skipped without error — and a value-taking flag consumes the next
token whatever its shape; in particular `["--token", "--enable-log"]`
parses to token `"--enable-log"` with logging not enabled. -/
theorem C6_parseArgs_exact_tokens :
    (∀ (a : String) (rest : List String) (r : ParsedArgs),
        a ≠ "--base-url" → a ≠ "--token" → a ≠ "--enable-log" →
        parseArgsLoop (a :: rest) r = parseArgsLoop rest r) ∧
    (∀ (v : String) (rest : List String) (r : ParsedArgs),
        parseArgsLoop ("--base-url" :: v :: rest) r =
          parseArgsLoop rest { r with baseUrl := some v }) ∧
    (∀ (v : String) (rest : List String) (r : ParsedArgs),
        parseArgsLoop ("--token" :: v :: rest) r =
          parseArgsLoop rest { r with token := some v }) ∧
    (∀ (rest : List String) (r : ParsedArgs),
        parseArgsLoop ("--enable-log" :: rest) r =
          parseArgsLoop rest { r with enableLog := some true }) ∧
    parseArgs ["--token", "--enable-log"] =
      { baseUrl := none, token := some "--enable-log", enableLog := none } := by
  refine ⟨?_, fun v rest r => rfl, fun v rest r => rfl, ?_, by decide⟩
  · intro a rest r h1 h2 h3
    have e1 : (a == "--base-url") = false := by simp [h1]
    have e2 : (a == "--token") = false := by simp [h2]
    have e3 : (a == "--enable-log") = false := by simp [h3]
    cases rest <;> simp [parseArgsLoop, e1, e2, e3]
  · intro rest r
    cases rest with
    | nil => rfl
    | cons b bs => rfl

/-- Witness for C6: an unrecognized token is skipped. -/
theorem C6_parseArgs_exact_tokens_witness :
    parseArgsLoop ["xyz"] { baseUrl := none, token := none, enableLog := none } =
      parseArgsLoop [] { baseUrl := none, token := none, enableLog := none } :=
  C6_parseArgs_exact_tokens.1 "xyz" []
    { baseUrl := none, token := none, enableLog := none }
    (by decide) (by decide) (by decide)

/-- C7: `sendMcpLog` never lets a failure escape to its caller: with no
bound server it returns immediately, and with a bound server any failure
of the delivery attempt is caught and discarded, for every level, message
and delivery behaviour. -/
theorem C7_sendMcpLog_never_fails :
    ∀ (server : Option McpServerModel) (level : LogLevel) (message : String),
      sendMcpLog server level message = Except.ok () := by
  intro server level message
  cases server with
  | none => rfl
  | some s =>
    cases hE : s.sendLoggingMessage level message with
    | ok u => simp [sendMcpLog, hE]
    | error e => simp [sendMcpLog, hE]

/-- C8: every successfully built `Config` has `batchSize = 10`,
`maxLinesPerBlob = 800`, the default text-extension table (containing
`.py`, `.rs`, `.vue`) and the default exclude-pattern table (containing
`node_modules`, `.git`, `dist` and the tool-specific `.ace-tool`). -/
theorem C8_config_constants :
    ∀ (argv : List String) (st : Option Config) (c : Config),
      (initConfig argv st).1 = Except.ok c →
      c.batchSize = 10 ∧ c.maxLinesPerBlob = 800 ∧
      c.textExtensions = DEFAULT_TEXT_EXTENSIONS ∧
      c.excludePatterns = DEFAULT_EXCLUDE_PATTERNS ∧
      ".py" ∈ c.textExtensions ∧ ".rs" ∈ c.textExtensions ∧
      ".vue" ∈ c.textExtensions ∧
      "node_modules" ∈ c.excludePatterns ∧ ".git" ∈ c.excludePatterns ∧
      "dist" ∈ c.excludePatterns ∧ ".ace-tool" ∈ c.excludePatterns := by
  intro argv st c h
  simp only [initConfig] at h
  obtain ⟨_, _, hc, _⟩ := initFromArgs_ok h
  subst hc
  refine ⟨rfl, rfl, rfl, rfl, ?_, ?_, ?_, ?_, ?_, ?_, ?_⟩ <;>
    first
    | exact (by decide : (".py" : String) ∈ DEFAULT_TEXT_EXTENSIONS)
    | exact (by decide : (".rs" : String) ∈ DEFAULT_TEXT_EXTENSIONS)
    | exact (by decide : (".vue" : String) ∈ DEFAULT_TEXT_EXTENSIONS)
    | exact (by decide : ("node_modules" : String) ∈ DEFAULT_EXCLUDE_PATTERNS)
    | exact (by decide : (".git" : String) ∈ DEFAULT_EXCLUDE_PATTERNS)
    | exact (by decide : ("dist" : String) ∈ DEFAULT_EXCLUDE_PATTERNS)
    | exact (by decide : (".ace-tool" : String) ∈ DEFAULT_EXCLUDE_PATTERNS)

/-- Witness for C8 at a concrete argv. -/
theorem C8_config_constants_witness :
    (mkConfig "https://u" "t" false).batchSize = 10 ∧
    (mkConfig "https://u" "t" false).maxLinesPerBlob = 800 ∧
    (mkConfig "https://u" "t" false).textExtensions = DEFAULT_TEXT_EXTENSIONS ∧
    (mkConfig "https://u" "t" false).excludePatterns = DEFAULT_EXCLUDE_PATTERNS ∧
    ".py" ∈ (mkConfig "https://u" "t" false).textExtensions ∧
    ".rs" ∈ (mkConfig "https://u" "t" false).textExtensions ∧
    ".vue" ∈ (mkConfig "https://u" "t" false).textExtensions ∧
    "node_modules" ∈ (mkConfig "https://u" "t" false).excludePatterns ∧
    ".git" ∈ (mkConfig "https://u" "t" false).excludePatterns ∧
    "dist" ∈ (mkConfig "https://u" "t" false).excludePatterns ∧
    ".ace-tool" ∈ (mkConfig "https://u" "t" false).excludePatterns :=
  C8_config_constants ["--base-url", "u", "--token", "t"] none
    (mkConfig "https://u" "t" false) (by rfl)

/-- C9: a present-but-empty value for `--base-url` or `--token` fails with
the same missing-argument error as an absent flag: the truthiness check
cannot distinguish `some ""` from `none`. -/
theorem C9_empty_values_as_missing :
    (∀ (argv : List String) (st : Option Config),
        (parseArgs argv).baseUrl = some "" →
        initConfig argv st = (Except.error "Missing required argument: --base-url", st)) ∧
    (∀ (argv : List String) (st : Option Config),
        jsTruthy (parseArgs argv).baseUrl = true →
        (parseArgs argv).token = some "" →
        initConfig argv st = (Except.error "Missing required argument: --token", st)) ∧
    jsTruthy (some "") = jsTruthy none := by
  refine ⟨?_, ?_, rfl⟩
  · intro argv st h
    have hf : jsTruthy (parseArgs argv).baseUrl = false := by rw [h]; rfl
    simp only [initConfig]
    exact initFromArgs_missing_baseUrl hf
  · intro argv st h1 h2
    have hf : jsTruthy (parseArgs argv).token = false := by rw [h2]; rfl
    simp only [initConfig]
    exact initFromArgs_missing_token h1 hf

/-- Witness for C9 at a concrete argv with an empty base-url value. -/
theorem C9_empty_values_as_missing_witness :
    initConfig ["--base-url", "", "--token", "t"] none =
      (Except.error "Missing required argument: --base-url", none) :=
  C9_empty_values_as_missing.1 ["--base-url", "", "--token", "t"] none (by decide)

/-- C10: a second `initConfig` call never fails because of the first: its
outcome is independent of the slot's previous contents, and on success it
overwrites the slot with the freshly built `Config`, which subsequent
`getConfig` calls return. -/
theorem C10_reinit_overwrites :
    (∀ (argv : List String) (st st2 : Option Config),
        (initConfig argv st).1 = (initConfig argv st2).1) ∧
    (∀ (argv : List String) (st : Option Config) (c : Config),
        (initConfig argv st).1 = Except.ok c →
        (initConfig argv st).2 = some c ∧
        getConfig (initConfig argv st).2 = Except.ok c) := by
  constructor
  · intro argv st st2
    simp only [initConfig]
    cases h1 : jsTruthy (parseArgs argv).baseUrl
    · rw [initFromArgs_missing_baseUrl h1, initFromArgs_missing_baseUrl h1]
    · cases h2 : jsTruthy (parseArgs argv).token
      · rw [initFromArgs_missing_token h1 h2, initFromArgs_missing_token h1 h2]
      · rw [initFromArgs_success h1 h2, initFromArgs_success h1 h2]
  · intro argv st c h
    simp only [initConfig] at h ⊢
    obtain ⟨_, _, _, hst⟩ := initFromArgs_ok h
    refine ⟨hst, ?_⟩
    rw [hst]
    rfl

/-- Witness for C10: re-initialization over an already filled slot
replaces the stored configuration. -/
theorem C10_reinit_overwrites_witness :
    (initConfig ["--base-url", "u", "--token", "t"]
        (some (mkConfig "https://old" "o" false))).2 =
      some (mkConfig "https://u" "t" false) ∧
    getConfig (initConfig ["--base-url", "u", "--token", "t"]
        (some (mkConfig "https://old" "o" false))).2 =
      Except.ok (mkConfig "https://u" "t" false) :=
  C10_reinit_overwrites.2 ["--base-url", "u", "--token", "t"]
    (some (mkConfig "https://old" "o" false))
    (mkConfig "https://u" "t" false) (by rfl)

end AceTool
